import Mathlib

/-!
Shallow embedding of `src/static/js/script.js` (functions `generateQuiz`,
`displayQuiz`, `displayError`).  Strings from the DOM are modelled as Lean
`String`s; JavaScript string helpers (`split`, `trim`, `Number`, `||`,
relational comparison with `ToNumber` coercion) are modelled explicitly
below, each faithful to ECMAScript semantics on the value shapes the script
actually handles (integer-literal numeric strings; see the individual doc
comments).  The single network call is modelled by passing the response the
server would give as an argument; the outcome records whether the request
was issued, its serialized body, the displayed error message and the
rendered quiz markup.
-/

/-- JavaScript `String.prototype.split` with a one-character separator,
on the character list of the string.  `"".split(",")` is `[""]`, i.e.
`splitChars sep [] = [[]]`: the result is never empty. -/
def splitChars (sep : Char) : List Char → List (List Char)
  | [] => [[]]
  | c :: cs =>
    if c = sep then [] :: splitChars sep cs
    else
      match splitChars sep cs with
      | [] => [[c]]
      | h :: t => (c :: h) :: t

/-- JavaScript `s.split(sep)` for a one-character separator. -/
def jsSplit (s : String) (sep : Char) : List String :=
  (splitChars sep s.data).map (fun l => ⟨l⟩)

/-- Strip leading and trailing whitespace from a character list. -/
def trimChars (l : List Char) : List Char :=
  ((l.dropWhile Char.isWhitespace).reverse.dropWhile Char.isWhitespace).reverse

/-- JavaScript `String.prototype.trim`: strips leading and trailing
whitespace. -/
def jsTrim (s : String) : String :=
  ⟨trimChars s.data⟩

/-- Decimal digit run to a natural number; `none` unless the list is a
nonempty run of digits. -/
def parseDigits (l : List Char) : Option Nat :=
  if l ≠ [] ∧ l.all Char.isDigit then
    some (l.foldl (fun a c => a * 10 + (c.toNat - 48)) 0)
  else none

/-- JavaScript `Number(s)` (the `ToNumber` coercion) on a string, restricted
to the shapes the script feeds it: surrounding whitespace is ignored, the
empty string is `0`, an optionally signed decimal-integer literal is its
value, anything else is `NaN`, modelled as `none`.  (Float, hex and exponent
literals are outside the inputs this program compares or serializes.) -/
def jsToNumber (s : String) : Option Int :=
  match (jsTrim s).data with
  | [] => some 0
  | '-' :: ds => (parseDigits ds).map (fun n => -(n : Int))
  | '+' :: ds => (parseDigits ds).map (fun n => (n : Int))
  | ds => (parseDigits ds).map (fun n => (n : Int))

/-- JavaScript `x < b` where `x` is a string coerced by `ToNumber`:
comparison with `NaN` is false. -/
def numLt : Option Int → Int → Prop
  | some v, b => v < b
  | none, _ => False

/-- JavaScript `x > b` where `x` is a string coerced by `ToNumber`:
comparison with `NaN` is false. -/
def numGt : Option Int → Int → Prop
  | some v, b => b < v
  | none, _ => False

instance instDecidableNumLt : (o : Option Int) → (b : Int) → Decidable (numLt o b)
  | some v, b => inferInstanceAs (Decidable (v < b))
  | none, _ => inferInstanceAs (Decidable False)

instance instDecidableNumGt : (o : Option Int) → (b : Int) → Decidable (numGt o b)
  | some v, b => inferInstanceAs (Decidable (b < v))
  | none, _ => inferInstanceAs (Decidable False)

/-- JavaScript `o || d` for a possibly-absent string `o`: the fallback `d`
is used when `o` is absent (`undefined`/`null`) or the empty string (falsy). -/
def jsOrStr (o : Option String) (d : String) : String :=
  match o with
  | some s => if s = "" then d else s
  | none => d

/-- The four raw form-field values read at the top of `generateQuiz`
(DOM `.value` is always a string). -/
structure FormState where
  topics : String
  qType : String
  difficulty : String
  numQuestions : String
deriving DecidableEq, Repr

/-- The object passed to `JSON.stringify` as the POST body:
`{topics, type: qType, difficulty, num_questions: Number(numQuestions)}`.
`num = none` is `NaN` (which `JSON.stringify` serializes as `null`). -/
structure Request where
  topics : List String
  qType : String
  difficulty : String
  num : Option Int
deriving DecidableEq, Repr

/-- A question value in the response: JavaScript tolerates both a plain
string and an object carrying a `text` field (`qobj none` is an object
without a `text` property). -/
inductive Question where
  | qstr (s : String)
  | qobj (text : Option String)
deriving DecidableEq, Repr

/-- The parsed JSON response body, restricted to the two fields the script
reads: `data.error` and `data.questions` (`none` models an absent or null
field, which is exactly how the script's falsiness checks treat them). -/
structure RespBody where
  error : Option String := none
  questions : Option (List Question) := none
deriving DecidableEq, Repr

/-- The fetch response: its `ok` flag (status in the success range) and its
JSON-parsed body. -/
structure Resp where
  ok : Bool
  body : RespBody
deriving DecidableEq, Repr

/-- JSON string escaping as performed by `JSON.stringify` (quote, backslash
and the common control characters; other characters pass through). -/
def jsonEscapeChar (c : Char) : String :=
  if c = '"' then "\\\""
  else if c = '\\' then "\\\\"
  else if c = '\n' then "\\n"
  else if c = '\t' then "\\t"
  else if c = '\r' then "\\r"
  else String.singleton c

/-- `JSON.stringify` of a string. -/
def jsonQuote (s : String) : String :=
  "\"" ++ String.join (s.data.map jsonEscapeChar) ++ "\""

/-- `JSON.stringify` of the request number: a finite number prints in
decimal, `NaN` prints as `null`. -/
def jsonNum : Option Int → String
  | some n => toString n
  | none => "null"

/-- `JSON.stringify({topics: ..., type: ..., difficulty: ...,
num_questions: ...})` with the key order of the object literal in the
source. -/
def stringifyRequest (r : Request) : String :=
  "\x7b\"topics\":[" ++ String.intercalate "," (r.topics.map jsonQuote) ++
    "],\"type\":" ++ jsonQuote r.qType ++
    ",\"difficulty\":" ++ jsonQuote r.difficulty ++
    ",\"num_questions\":" ++ jsonNum r.num ++ "\x7d"

/-- `document.getElementById('topics').value.split(',').map(t => t.trim())`. -/
def theTopics (f : FormState) : List String :=
  (jsSplit f.topics ',').map jsTrim

/-- The condition of `if (!topics.length || !qType || !difficulty ||
!numQuestions)`: an empty array is falsy via `.length`, a string is falsy
exactly when empty. -/
def requiredFail (f : FormState) : Prop :=
  (theTopics f).length = 0 ∨ f.qType = "" ∨ f.difficulty = "" ∨ f.numQuestions = ""

instance (f : FormState) : Decidable (requiredFail f) :=
  inferInstanceAs (Decidable ((theTopics f).length = 0 ∨ f.qType = "" ∨
    f.difficulty = "" ∨ f.numQuestions = ""))

/-- The condition of `if (numQuestions < 1 || numQuestions > 20)`: the
string is coerced by `ToNumber`, and both comparisons are false on `NaN`. -/
def rangeFail (f : FormState) : Prop :=
  numLt (jsToNumber f.numQuestions) 1 ∨ numGt (jsToNumber f.numQuestions) 20

instance (f : FormState) : Decidable (rangeFail f) :=
  inferInstanceAs (Decidable (numLt (jsToNumber f.numQuestions) 1 ∨
    numGt (jsToNumber f.numQuestions) 20))

/-- `undefined`-tolerant read of `q.text`: a plain string has no `text`
property. -/
def jsGetText : Question → Option String
  | .qstr _ => none
  | .qobj t => t

/-- JavaScript string conversion of a question value as interpolated by the
template literal: a string is itself, a plain object prints as
`[object Object]`. -/
def jsToString : Question → String
  | .qstr s => s
  | .qobj _ => "[object Object]"

/-- The interpolated `${q.text || q}`: `q.text` when present and truthy
(nonempty), otherwise the string conversion of `q` itself. -/
def shownText (q : Question) : String :=
  match jsGetText q with
  | some s => if s = "" then jsToString q else s
  | none => jsToString q

/-- One block of the template literal in `displayQuiz`, with its exact
whitespace; `n` is the 1-based question number `i + 1`. -/
def questionBlock (n : Nat) (body : String) : String :=
  "\n        <div class=\"question\">\n            <h3>Q" ++ toString n ++
    ":</h3>\n            <p>" ++ body ++ "</p>\n        </div>\n    "

/-- JavaScript `Array.prototype.join('')`. -/
def concatAll : List String → String
  | [] => ""
  | s :: ss => s ++ concatAll ss

/-- `displayQuiz(questions)`: the string assigned to
`quizContainer.innerHTML`, i.e. `questions.map((q, i) => block).join('')`. -/
def displayQuiz (qs : List Question) : String :=
  concatAll (qs.mapIdx (fun i q => questionBlock (i + 1) (shownText q)))

/-- The observable outcome of one run of `generateQuiz`: validation failure
(no request issued), a caught error after the request, or a rendered quiz. -/
inductive Outcome where
  | validationError (msg : String)
  | fetchError (msg : String) (req : Request)
  | success (req : Request) (rendered : String)
deriving DecidableEq, Repr

/-- The `try` block of `generateQuiz` after validation has passed: build and
send the request, then classify the response exactly as the source does
(`!response.ok` throws `data.error || "Request failed"`; a missing or empty
`questions` list throws `"No questions generated"`; otherwise
`displayQuiz(data.questions)` runs).  The `catch` prefixes the thrown
message with `"Failed to generate quiz: "`.  `builtRequest` is the object
literal passed to `JSON.stringify`. -/
def builtRequest (f : FormState) : Request :=
  ⟨theTopics f, f.qType, f.difficulty, jsToNumber f.numQuestions⟩

/-- See `builtRequest`: the body of the `try` block of `generateQuiz`. -/
def fetchFlow (f : FormState) (resp : Resp) : Outcome :=
  if resp.ok = false then
    .fetchError ("Failed to generate quiz: " ++ jsOrStr resp.body.error "Request failed")
      (builtRequest f)
  else
    match resp.body.questions with
    | none => .fetchError "Failed to generate quiz: No questions generated" (builtRequest f)
    | some qs =>
      if qs.length = 0 then
        .fetchError "Failed to generate quiz: No questions generated" (builtRequest f)
      else
        .success (builtRequest f) (displayQuiz qs)

/-- `generateQuiz`, as a function of the raw form state and of the response
the server would give to the POST request. -/
def generateQuiz (f : FormState) (resp : Resp) : Outcome :=
  if requiredFail f then .validationError "All fields are required!"
  else if rangeFail f then .validationError "Please choose between 1 and 20 questions!"
  else fetchFlow f resp

/-- The request sent by the run, when one was issued. -/
def requestOf : Outcome → Option Request
  | .validationError _ => none
  | .fetchError _ r => some r
  | .success r _ => some r

/-- Whether the run issued the network request. -/
def requestIssued (o : Outcome) : Bool :=
  (requestOf o).isSome

/-- The serialized POST body of the run, when a request was issued. -/
def requestBody (o : Outcome) : Option String :=
  (requestOf o).map stringifyRequest

/-- The `topics` array of the issued request. -/
def sentTopics (o : Outcome) : Option (List String) :=
  (requestOf o).map Request.topics

/-- The `num_questions` value of the issued request (`some none` is `NaN`). -/
def sentNum (o : Outcome) : Option (Option Int) :=
  (requestOf o).map Request.num

/-- The message passed to `displayError` by the run, if any. -/
def displayedMessage : Outcome → Option String
  | .validationError m => some m
  | .fetchError m _ => some m
  | .success _ _ => none

/-- The markup `displayQuiz` wrote, if the run reached it. -/
def renderedQuiz : Outcome → Option String
  | .success _ r => some r
  | _ => none

/-- A DOM element, restricted to the properties `displayError` touches. -/
structure Element where
  id : String
  color : String
  marginBottom : String
  text : String
deriving DecidableEq, Repr

/-- The document, as the list of `document.body`'s children in order. -/
structure Doc where
  body : List Element
deriving DecidableEq, Repr

/-- The error-notice element exactly as `displayError` configures it:
`id = 'errorContainer'`, red, `1rem` bottom margin, `textContent = msg`. -/
def errElem (msg : String) : Element :=
  ⟨"errorContainer", "red", "1rem", msg⟩

/-- `document.getElementById('errorContainer')` followed by the in-place
mutation of the found element, modelled as replacing the first element whose
id matches with the freshly configured one (the source re-sets id, style and
text on it); `none` when no such element exists. -/
def setFirstError (msg : String) : List Element → Option (List Element)
  | [] => none
  | e :: es =>
    if e.id = "errorContainer" then some (errElem msg :: es)
    else (setFirstError msg es).map (fun l => e :: l)

/-- `displayError(message)`: reuse the existing `errorContainer` element if
the document holds one, otherwise create it and `document.body.prepend` it
(the `contains` guard is false exactly in the created-fresh case). -/
def displayError (msg : String) (d : Doc) : Doc :=
  match setFirstError msg d.body with
  | some b => ⟨b⟩
  | none => ⟨errElem msg :: d.body⟩

/-- How many elements with id `errorContainer` the document holds. -/
def errNoticeCount (d : Doc) : Nat :=
  d.body.countP (fun e => e.id == "errorContainer")

/-- The text of the first element with id `errorContainer`, if any. -/
def firstErrText (d : Doc) : Option String :=
  (d.body.find? (fun e => e.id == "errorContainer")).map Element.text

/-- The shown text as claimed: `question.text` when the question is an
object, the question value itself when it is a string. -/
def specShownText : Question → String
  | .qstr s => s
  | .qobj t => t.getD ""

/-- The shown text as amended: `question.text` when the question is an
object with a nonempty `text` field, otherwise the string conversion of the
question value itself. -/
def amendedShownText : Question → String
  | .qstr s => s
  | .qobj (some s) => if s = "" then "[object Object]" else s
  | .qobj none => "[object Object]"

/-- Rendering described independently of the source's `map`/`join`: one
block per question, numbered sequentially starting from `n`, each showing
the given text. -/
def renderQuizFrom (shown : Question → String) (n : Nat) : List Question → String
  | [] => ""
  | q :: qs => questionBlock n (shown q) ++ renderQuizFrom shown (n + 1) qs

/-- The rendering the claim describes, numbered from 1. -/
def renderQuizSpec (qs : List Question) : String :=
  renderQuizFrom specShownText 1 qs

/-- The rendering the amended claim describes, numbered from 1. -/
def renderQuizAmended (qs : List Question) : String :=
  renderQuizFrom amendedShownText 1 qs

/-! ### Helper lemmas -/

/-- `split` never returns an empty array. -/
theorem splitChars_ne_nil (sep : Char) : ∀ l : List Char, splitChars sep l ≠ [] := by
  intro l
  induction l with
  | nil => simp [splitChars]
  | cons c cs ih =>
    simp only [splitChars]
    split
    · simp
    · cases h : splitChars sep cs with
      | nil => simp
      | cons a t => simp

/-- `s.split(',')` always has at least one element, even on `""`. -/
theorem jsSplit_length_pos (s : String) : 1 ≤ (jsSplit s ',').length := by
  have h := splitChars_ne_nil ',' s.data
  simp only [jsSplit, List.length_map]
  cases hs : splitChars ',' s.data with
  | nil => exact absurd hs h
  | cons a t => simp

/-- The split-and-trimmed topics list always has at least one element. -/
theorem theTopics_length_pos (f : FormState) : 1 ≤ (theTopics f).length := by
  have h := jsSplit_length_pos f.topics
  simpa [theTopics] using h

/-- When no `errorContainer` element exists, none is found to reuse. -/
theorem setFirstError_none {msg : String} :
    ∀ {l : List Element}, setFirstError msg l = none →
      l.countP (fun e => e.id == "errorContainer") = 0 := by
  intro l
  induction l with
  | nil => intro _; rfl
  | cons e es ih =>
    intro h
    simp only [setFirstError] at h
    split at h
    · exact absurd h (by simp)
    · rename_i hid
      rw [Option.map_eq_none'] at h
      simp [List.countP_cons, ih h, hid]

/-- Reusing the existing element keeps the notice count unchanged and makes
the first notice carry the new message. -/
theorem setFirstError_some {msg : String} :
    ∀ {l l' : List Element}, setFirstError msg l = some l' →
      l'.countP (fun e => e.id == "errorContainer") =
        l.countP (fun e => e.id == "errorContainer") ∧
      l'.find? (fun e => e.id == "errorContainer") = some (errElem msg) ∧
      1 ≤ l.countP (fun e => e.id == "errorContainer") := by
  intro l
  induction l with
  | nil => intro l' h; simp [setFirstError] at h
  | cons e es ih =>
    intro l' h
    simp only [setFirstError] at h
    split at h
    · rename_i hid
      rw [Option.some_inj] at h
      subst h
      refine ⟨?_, ?_, ?_⟩
      · simp [List.countP_cons, hid, errElem]
      · simp [List.find?_cons, errElem]
      · simp [List.countP_cons, hid]
    · rename_i hid
      rw [Option.map_eq_some'] at h
      obtain ⟨l'', hl'', rfl⟩ := h
      obtain ⟨hc, hf, hpos⟩ := ih hl''
      refine ⟨?_, ?_, ?_⟩
      · simp [List.countP_cons, hc, hid]
      · simp [List.find?_cons, hid, hf]
      · rw [List.countP_cons]
        omega

/-- `shownText` agrees pointwise with the amended description. -/
theorem shownText_eq_amended (q : Question) : shownText q = amendedShownText q := by
  cases q with
  | qstr s => rfl
  | qobj t =>
    cases t with
    | none => rfl
    | some s => rfl

/-- Bridge between the source's indexed `map`+`join` and the recursive
numbered-blocks description, generalized over the starting number. -/
theorem concatAll_mapIdx_questionBlock :
    ∀ (qs : List Question) (n : Nat),
      concatAll (qs.mapIdx (fun i q => questionBlock (i + n + 1) (shownText q))) =
        renderQuizFrom amendedShownText (n + 1) qs := by
  intro qs
  induction qs with
  | nil => intro n; rfl
  | cons q qs ih =>
    intro n
    simp only [List.mapIdx_cons, concatAll]
    have hfun : (fun i q' => questionBlock (i + 1 + n + 1) (shownText q')) =
        (fun i q' => questionBlock (i + (n + 1) + 1) (shownText q')) := by
      funext i q'
      have harith : i + 1 + n + 1 = i + (n + 1) + 1 := by omega
      rw [harith]
    rw [Nat.zero_add, hfun, ih (n + 1), shownText_eq_amended]
    rfl

/-- The source renderer equals the amended numbered-blocks description. -/
theorem displayQuiz_eq_renderQuizAmended (qs : List Question) :
    displayQuiz qs = renderQuizAmended qs := by
  have h := concatAll_mapIdx_questionBlock qs 0
  simpa [displayQuiz, renderQuizAmended] using h

/-- The try-block never produces a validation-error outcome. -/
theorem fetchFlow_ne_validationError (f : FormState) (resp : Resp) (m : String) :
    fetchFlow f resp ≠ .validationError m := by
  unfold fetchFlow
  split
  · simp
  · cases resp.body.questions with
    | none => simp
    | some qs =>
      simp only
      split
      · simp
      · simp

/-- Whatever the response, the try-block sends the request built from the
current form fields. -/
theorem requestOf_fetchFlow (f : FormState) (resp : Resp) :
    requestOf (fetchFlow f resp) = some (builtRequest f) := by
  unfold fetchFlow
  split
  · rfl
  · cases resp.body.questions with
    | none => rfl
    | some qs =>
      simp only
      split
      · rfl
      · rfl

/-- `dropWhile` is idempotent. -/
theorem dropWhile_idem (p : Char → Bool) :
    ∀ l : List Char, (l.dropWhile p).dropWhile p = l.dropWhile p := by
  intro l
  induction l with
  | nil => rfl
  | cons a l ih =>
    by_cases hp : p a = true
    · simp [List.dropWhile_cons, hp, ih]
    · simp [List.dropWhile_cons, hp]

/-- A prefix of a list that `dropWhile` leaves unchanged is itself left
unchanged. -/
theorem dropWhile_eq_self_of_prefix (p : Char → Bool) :
    ∀ (xs ys : List Char), xs <+: ys → ys.dropWhile p = ys → xs.dropWhile p = xs := by
  intro xs ys hpre hys
  cases xs with
  | nil => rfl
  | cons x xs' =>
    obtain ⟨t, ht⟩ := hpre
    by_cases hp : p x = true
    · exfalso
      rw [← ht, List.cons_append, List.dropWhile_cons, if_pos hp] at hys
      have hlen := List.IsSuffix.length_le (List.dropWhile_suffix p (l := xs' ++ t))
      have := congrArg List.length hys
      simp only [List.length_cons] at this
      omega
    · simp [List.dropWhile_cons, hp]

/-- Trimming is idempotent. -/
theorem trimChars_idem (l : List Char) : trimChars (trimChars l) = trimChars l := by
  unfold trimChars
  have h1 : (((l.dropWhile Char.isWhitespace).reverse.dropWhile
      Char.isWhitespace).reverse).dropWhile Char.isWhitespace =
      ((l.dropWhile Char.isWhitespace).reverse.dropWhile Char.isWhitespace).reverse := by
    apply dropWhile_eq_self_of_prefix Char.isWhitespace _
      (l.dropWhile Char.isWhitespace)
    · have hsuf := List.dropWhile_suffix (l := (l.dropWhile Char.isWhitespace).reverse)
        Char.isWhitespace
      have := List.reverse_prefix.mpr hsuf
      simpa using this
    · exact dropWhile_idem Char.isWhitespace l
  rw [h1, List.reverse_reverse, dropWhile_idem]

/-- JavaScript `trim` is idempotent. -/
theorem jsTrim_idem (s : String) : jsTrim (jsTrim s) = jsTrim s := by
  show (⟨trimChars (String.data ⟨trimChars s.data⟩)⟩ : String) = ⟨trimChars s.data⟩
  rw [show String.data ⟨trimChars s.data⟩ = trimChars s.data from rfl, trimChars_idem]

/-! ### Claims -/

/-- C1 (counterexample): with raw `numQuestions` value `"abc"` the validator
does not reject the submission: no message is displayed and the flow
proceeds to the network request, because `"abc" < 1` and `"abc" > 20` both
coerce to comparisons with `NaN` and are false. -/
theorem c1_abc_counterexample :
    displayedMessage (generateQuiz ⟨"math", "mcq", "easy", "abc"⟩
      ⟨true, ⟨none, some [.qstr "q"]⟩⟩) = none ∧
    requestIssued (generateQuiz ⟨"math", "mcq", "easy", "abc"⟩
      ⟨true, ⟨none, some [.qstr "q"]⟩⟩) = true :=
  ⟨rfl, rfl⟩

/-- C1 (amended): for raw `numQuestions` values `"0"`, `"21"`, `"-1"` (DOM
field values are strings) the validator rejects with the message "Please
choose between 1 and 20 questions!"; for `"1"` and `"20"` the range check
passes and the flow proceeds past validation to the request; the value
`"abc"` is not rejected: `Number("abc")` is `NaN`, both range comparisons
are false, the flow proceeds, and `num_questions` is serialized as `NaN`
(i.e. `null` in the JSON body). -/
theorem c1_numQuestions_range_amended (f : FormState) (resp : Resp)
    (hq : f.qType ≠ "") (hd : f.difficulty ≠ "") :
    ((f.numQuestions = "0" ∨ f.numQuestions = "21" ∨ f.numQuestions = "-1") →
      generateQuiz f resp = .validationError "Please choose between 1 and 20 questions!") ∧
    ((f.numQuestions = "1" ∨ f.numQuestions = "20") →
      requestIssued (generateQuiz f resp) = true) ∧
    (f.numQuestions = "abc" →
      requestIssued (generateQuiz f resp) = true ∧
      sentNum (generateQuiz f resp) = some none) := by
  have hreq : f.numQuestions ≠ "" → ¬ requiredFail f := by
    intro hne h
    rcases h with h | h | h | h
    · have := theTopics_length_pos f; omega
    · exact hq h
    · exact hd h
    · exact hne h
  refine ⟨?_, ?_, ?_⟩
  · rintro (h | h | h) <;>
    · unfold generateQuiz
      rw [if_neg (hreq (by rw [h]; decide)), if_pos (by unfold rangeFail; rw [h]; decide)]
  · rintro (h | h) <;>
    · unfold generateQuiz
      rw [if_neg (hreq (by rw [h]; decide)), if_neg (by unfold rangeFail; rw [h]; decide)]
      simp [requestIssued, requestOf_fetchFlow]
  · intro h
    unfold generateQuiz
    rw [if_neg (hreq (by rw [h]; decide)), if_neg (by unfold rangeFail; rw [h]; decide)]
    refine ⟨by simp [requestIssued, requestOf_fetchFlow], ?_⟩
    simp only [sentNum, requestOf_fetchFlow, Option.map_some', builtRequest]
    rw [h]
    decide

/-- C1 (witness): the amended theorem fires at the concrete form state with
`numQuestions = "0"`. -/
theorem c1_numQuestions_range_amended_witness :
    ("mcq" : String) ≠ "" ∧
    generateQuiz ⟨"math", "mcq", "easy", "0"⟩ ⟨true, ⟨none, some [.qstr "q"]⟩⟩ =
      .validationError "Please choose between 1 and 20 questions!" :=
  ⟨by decide,
    (c1_numQuestions_range_amended ⟨"math", "mcq", "easy", "0"⟩
      ⟨true, ⟨none, some [.qstr "q"]⟩⟩ (by decide) (by decide)).1 (Or.inl rfl)⟩

/-- C2 (code behavior at the failing input): with raw topics `""` and the
other three fields filled, validation passes — `"".split(',')` is `[""]`,
whose length 1 is truthy — so no "All fields are required!" message is
shown and the request is issued carrying the topics array `[""]`. -/
theorem c2_empty_topics_not_rejected :
    requestIssued (generateQuiz ⟨"", "mcq", "easy", "3"⟩
      ⟨true, ⟨none, some [.qstr "q"]⟩⟩) = true ∧
    displayedMessage (generateQuiz ⟨"", "mcq", "easy", "3"⟩
      ⟨true, ⟨none, some [.qstr "q"]⟩⟩) = none ∧
    sentTopics (generateQuiz ⟨"", "mcq", "easy", "3"⟩
      ⟨true, ⟨none, some [.qstr "q"]⟩⟩) = some [""] :=
  ⟨rfl, rfl, rfl⟩

/-- C3 (counterexample): for a non-success response whose body carries the
`error` field present but equal to `""`, the displayed message is
"Failed to generate quiz: Request failed" — the `||` fallback fires on the
falsy empty string — not the prefix followed by the (empty) error field. -/
theorem c3_empty_error_counterexample :
    displayedMessage (generateQuiz ⟨"math", "mcq", "easy", "5"⟩
      ⟨false, ⟨some "", none⟩⟩) = some "Failed to generate quiz: Request failed" ∧
    ("Failed to generate quiz: Request failed" : String) ≠
      "Failed to generate quiz: " ++ "" :=
  ⟨rfl, by decide⟩

/-- C3 (amended): for every response with a non-success status reached after
validation, the flow fails and the displayed message is "Failed to generate
quiz: " followed by the body's `error` field when that field is present and
nonempty, else by "Request failed"; in particular a body
`{"error":"backend down"}` displays "Failed to generate quiz: backend
down". -/
theorem c3_http_error_message_amended (f : FormState) (resp : Resp)
    (h1 : ¬ requiredFail f) (h2 : ¬ rangeFail f) (hok : resp.ok = false) :
    displayedMessage (generateQuiz f resp) =
      some ("Failed to generate quiz: " ++ jsOrStr resp.body.error "Request failed") ∧
    (∀ s : String, resp.body.error = some s → s ≠ "" →
      displayedMessage (generateQuiz f resp) = some ("Failed to generate quiz: " ++ s)) ∧
    ((resp.body.error = none ∨ resp.body.error = some "") →
      displayedMessage (generateQuiz f resp) =
        some "Failed to generate quiz: Request failed") := by
  have hmain : displayedMessage (generateQuiz f resp) =
      some ("Failed to generate quiz: " ++ jsOrStr resp.body.error "Request failed") := by
    unfold generateQuiz
    rw [if_neg h1, if_neg h2]
    unfold fetchFlow
    rw [if_pos hok]
    rfl
  refine ⟨hmain, ?_, ?_⟩
  · intro s hs hne
    rw [hmain, hs]
    simp [jsOrStr, hne]
  · rintro (hs | hs) <;> rw [hmain, hs] <;> simp [jsOrStr]

/-- C3 (witness): the amended theorem fires at status 500 with body
`{"error":"backend down"}`. -/
theorem c3_http_error_message_amended_witness :
    ¬ requiredFail ⟨"math", "mcq", "easy", "5"⟩ ∧
    displayedMessage (generateQuiz ⟨"math", "mcq", "easy", "5"⟩
      ⟨false, ⟨some "backend down", none⟩⟩) =
      some "Failed to generate quiz: backend down" := by
  refine ⟨by decide, ?_⟩
  have h := (c3_http_error_message_amended ⟨"math", "mcq", "easy", "5"⟩
    ⟨false, ⟨some "backend down", none⟩⟩ (by decide) (by decide) rfl).2.1
    "backend down" rfl (by decide)
  rw [show ("Failed to generate quiz: " ++ "backend down" : String) =
    "Failed to generate quiz: backend down" from rfl] at h
  exact h

/-- C4: for every successful-status response whose parsed body has no
`questions` field or an empty `questions` list, the flow fails with the
message "Failed to generate quiz: No questions generated" and `displayQuiz`
is never reached. -/
theorem c4_no_questions_message (f : FormState) (resp : Resp)
    (h1 : ¬ requiredFail f) (h2 : ¬ rangeFail f) (hok : resp.ok = true)
    (hq : resp.body.questions = none ∨ resp.body.questions = some []) :
    displayedMessage (generateQuiz f resp) =
      some "Failed to generate quiz: No questions generated" ∧
    renderedQuiz (generateQuiz f resp) = none := by
  unfold generateQuiz
  rw [if_neg h1, if_neg h2]
  unfold fetchFlow
  rw [if_neg (by simp [hok])]
  rcases hq with hq | hq <;> rw [hq] <;> exact ⟨rfl, rfl⟩

/-- C4 (witness): the theorem fires on the success response
`{"questions":[]}`. -/
theorem c4_no_questions_message_witness :
    ¬ requiredFail ⟨"math", "mcq", "easy", "3"⟩ ∧
    displayedMessage (generateQuiz ⟨"math", "mcq", "easy", "3"⟩
      ⟨true, ⟨none, some []⟩⟩) =
      some "Failed to generate quiz: No questions generated" :=
  ⟨by decide,
    (c4_no_questions_message ⟨"math", "mcq", "easy", "3"⟩ ⟨true, ⟨none, some []⟩⟩
      (by decide) (by decide) rfl (Or.inr rfl)).1⟩

/-- C5: for the validated request read from topics `"a,b"`, type `"mcq"`,
difficulty `"easy"` and `numQuestions` `"3"`, the serialized POST body is
exactly the claimed JSON string, with `num_questions` carried as the number
3. -/
theorem c5_serialized_body :
    requestBody (generateQuiz ⟨"a,b", "mcq", "easy", "3"⟩
      ⟨true, ⟨none, some [.qstr "q"]⟩⟩) =
      some "\x7b\"topics\":[\"a\",\"b\"],\"type\":\"mcq\",\"difficulty\":\"easy\",\"num_questions\":3\x7d" ∧
    sentNum (generateQuiz ⟨"a,b", "mcq", "easy", "3"⟩
      ⟨true, ⟨none, some [.qstr "q"]⟩⟩) = some (some 3) :=
  ⟨rfl, rfl⟩

/-- C6: one call to `displayError` leaves exactly one `errorContainer`
element when none existed (it is created and prepended), keeps the count
unchanged when one already exists (create-if-absent, then reuse — so after
the first call the count is exactly one and stays one across later calls),
and the first such element always carries the latest message; the count
never drops, so the element is never removed. -/
theorem c6_error_notice_singleton (d : Doc) (m : String) :
    errNoticeCount (displayError m d) = max (errNoticeCount d) 1 ∧
    firstErrText (displayError m d) = some m := by
  unfold displayError
  cases h : setFirstError m d.body with
  | none =>
    have h0 := setFirstError_none h
    constructor
    · simp [errNoticeCount, List.countP_cons, errElem, h0]
    · simp [firstErrText, List.find?_cons, errElem]
  | some b =>
    obtain ⟨hc, hf, hpos⟩ := setFirstError_some h
    constructor
    · show b.countP (fun e => e.id == "errorContainer") = _
      rw [hc]
      exact (Nat.max_eq_left hpos).symm
    · show (b.find? (fun e => e.id == "errorContainer")).map Element.text = some m
      rw [hf]
      rfl

/-- C7 (counterexample): for the question object `{"text": ""}` the rendered
block shows `[object Object]` — the interpolated value itself — not the
question's (empty) `text` field as the claim states. -/
theorem c7_empty_text_counterexample :
    displayQuiz [.qobj (some "")] ≠ renderQuizSpec [.qobj (some "")] ∧
    displayQuiz [.qobj (some "")] = questionBlock 1 "[object Object]" ∧
    renderQuizSpec [.qobj (some "")] = questionBlock 1 "" := by
  refine ⟨?_, rfl, rfl⟩
  rw [show displayQuiz [.qobj (some "")] = questionBlock 1 "[object Object]" from rfl,
    show renderQuizSpec [.qobj (some "")] = questionBlock 1 "" from rfl]
  decide

/-- C7 (amended): for every list of questions, `displayQuiz` replaces the
display area with one block per question, numbered sequentially from 1,
showing `question.text` when the question is an object with a nonempty
`text` field and the string conversion of the question value itself
otherwise; for the list `["Q1 text", {"text":"Q2 text"}]` the output is the
two blocks labeled Q1 and Q2 displaying "Q1 text" and "Q2 text". -/
theorem c7_render_blocks_amended :
    (∀ qs : List Question, displayQuiz qs = renderQuizAmended qs) ∧
    displayQuiz [.qstr "Q1 text", .qobj (some "Q2 text")] =
      "\n        <div class=\"question\">\n            <h3>Q1:</h3>\n            <p>Q1 text</p>\n        </div>\n    \n        <div class=\"question\">\n            <h3>Q2:</h3>\n            <p>Q2 text</p>\n        </div>\n    " :=
  ⟨displayQuiz_eq_renderQuizAmended, rfl⟩

/-- C8 (counterexample): the raw topics value `"a,,b"` passes validation and
the issued request's topics array is `["a","","b"]`: an empty segment does
appear in the request body. -/
theorem c8_empty_segment_counterexample :
    sentTopics (generateQuiz ⟨"a,,b", "mcq", "easy", "3"⟩
      ⟨true, ⟨none, some [.qstr "q"]⟩⟩) = some ["a", "", "b"] ∧
    ("" ∈ (["a", "", "b"] : List String)) :=
  ⟨rfl, by decide⟩

/-- C8 (amended): every issued request's topics array is exactly the
comma-split segments of the raw topics field, each trimmed — so every
element is a trimmed string — but empty segments are not filtered out and
may appear in the request body. -/
theorem c8_topics_trimmed_amended (f : FormState) (resp : Resp) (req : Request)
    (h : requestOf (generateQuiz f resp) = some req) :
    req.topics = (jsSplit f.topics ',').map jsTrim ∧
    ∀ t ∈ req.topics, jsTrim t = t := by
  have hreq : req = builtRequest f := by
    unfold generateQuiz at h
    split at h
    · simp [requestOf] at h
    · split at h
      · simp [requestOf] at h
      · rw [requestOf_fetchFlow] at h
        exact (Option.some_inj.mp h).symm
  subst hreq
  refine ⟨rfl, ?_⟩
  intro t ht
  rw [show (builtRequest f).topics = (jsSplit f.topics ',').map jsTrim from rfl] at ht
  obtain ⟨s, _, rfl⟩ := List.mem_map.mp ht
  exact jsTrim_idem s

/-- C8 (witness): the amended theorem fires on the raw topics `" a ,b"`,
whose issued request carries the trimmed segments `["a","b"]`. -/
theorem c8_topics_trimmed_amended_witness :
    requestOf (generateQuiz ⟨" a ,b", "mcq", "easy", "2"⟩
      ⟨true, ⟨none, some [.qstr "q"]⟩⟩) =
      some ⟨["a", "b"], "mcq", "easy", some 2⟩ ∧
    ((⟨["a", "b"], "mcq", "easy", some 2⟩ : Request).topics =
      (jsSplit " a ,b" ',').map jsTrim ∧
      ∀ t ∈ (⟨["a", "b"], "mcq", "easy", some 2⟩ : Request).topics, jsTrim t = t) :=
  ⟨rfl,
    c8_topics_trimmed_amended ⟨" a ,b", "mcq", "easy", "2"⟩
      ⟨true, ⟨none, some [.qstr "q"]⟩⟩ ⟨["a", "b"], "mcq", "easy", some 2⟩ rfl⟩

/-- C9: splitting any raw topics string on commas yields at least one
element — even for `""` — so the topics conjunct of the required-fields
check never fires: the "All fields are required!" outcome occurs exactly
when `q_type`, `difficulty` or `num_questions` is empty, never because of
topics. -/
theorem c9_topics_emptiness_unreachable (f : FormState) (resp : Resp) (s : String) :
    1 ≤ (jsSplit s ',').length ∧
    (generateQuiz f resp = .validationError "All fields are required!" ↔
      (f.qType = "" ∨ f.difficulty = "" ∨ f.numQuestions = "")) := by
  refine ⟨jsSplit_length_pos s, ?_, ?_⟩
  · intro h
    unfold generateQuiz at h
    split at h
    · rename_i hreq
      rcases hreq with hlen | hrest
      · exact absurd hlen (by have := theTopics_length_pos f; omega)
      · exact hrest
    · split at h
      · exact absurd h (by decide)
      · exact absurd h (fetchFlow_ne_validationError f resp _)
  · intro hr
    unfold generateQuiz
    rw [if_pos (show requiredFail f from Or.inr hr)]

/-- C10: for every question value whose `text` is absent or falsy — e.g.
`{"text": ""}` — the rendered block interpolates the question value itself
(`q.text || q` falls through), not its `text` field. -/
theorem c10_falsy_text_fallback (q : Question)
    (h : jsGetText q = none ∨ jsGetText q = some "") :
    shownText q = jsToString q ∧
    displayQuiz [q] = questionBlock 1 (jsToString q) := by
  have hs : shownText q = jsToString q := by
    cases q with
    | qstr s => rfl
    | qobj t =>
      rcases h with h | h <;> simp only [jsGetText] at h <;> rw [h] <;> rfl
  refine ⟨hs, ?_⟩
  show concatAll (List.mapIdx (fun i q' => questionBlock (i + 1) (shownText q')) [q]) = _
  rw [List.mapIdx_cons, List.mapIdx_nil]
  show questionBlock (0 + 1) (shownText q) ++ concatAll [] = questionBlock 1 (jsToString q)
  rw [hs, Nat.zero_add]
  exact String.append_empty _

/-- C10 (witness): the theorem fires at the object `{"text": ""}`. -/
theorem c10_falsy_text_fallback_witness :
    (jsGetText (.qobj (some "")) = none ∨ jsGetText (.qobj (some "")) = some "") ∧
    (shownText (.qobj (some "")) = jsToString (.qobj (some "")) ∧
      displayQuiz [.qobj (some "")] = questionBlock 1 (jsToString (.qobj (some "")))) :=
  ⟨Or.inr rfl, c10_falsy_text_fallback (.qobj (some "")) (Or.inr rfl)⟩
